import Mathlib

/-! The bridge network interface resource.

A shallow embedding of `maas/resource_maas_network_interface_bridge.go`:
the import handler, the four lifecycle callbacks (create, read, update,
delete), the parameter mapping and the two lookup helpers
`findNetworkInterfaceBridge` / `getNetworkInterfaceBridge`.

* Go values stored behind `interface{}` are a sum type `Value`; a type
  assertion `x.(T)` is a function into `Except Panic T`.
* Go `error` results are `Except Error _`; the diagnostics returned by a
  lifecycle callback are the `Res.err` case, a run-time panic the `Res.panic`
  case.
* The remote service is a record of functions over an abstract state, and
  every call made to it is appended to a call log, so that statements of the
  form "no remote call is issued" can be expressed.
-/

namespace Maas

/-! ## Values, panics and errors -/

/-- The dynamic type of a value stored in an `interface{}`. -/
inductive Ty where
  | nil
  | string
  | int
  | bool
  | set
  deriving DecidableEq, Repr

/-- A value stored in an `interface{}`, as returned by `d.Get`. -/
inductive Value where
  | nil
  | str (s : String)
  | int (n : Int)
  | bool (b : Bool)
  | set (xs : List String)
  deriving DecidableEq, Repr

/-- The dynamic type of a value. -/
def Value.ty : Value → Ty
  | .nil => .nil
  | .str _ => .string
  | .int _ => .int
  | .bool _ => .bool
  | .set _ => .set

/-- The zero value `d.Get` yields for an attribute of the given schema type
that has never been set. -/
def Ty.zero : Ty → Value
  | .nil => .nil
  | .string => .str ""
  | .int => .int 0
  | .bool => .bool false
  | .set => .set []

/-- The run-time panic of a failed single-result type assertion `x.(T)`:
"interface conversion: interface {} is `dynamic`, not `asserted`". -/
structure Panic where
  dynamic : Ty
  asserted : Ty
  deriving DecidableEq, Repr

/-- The two failure kinds of `strconv`: `ErrSyntax` and `ErrRange`. -/
inductive NumErrKind where
  | syntaxErr
  | rangeErr
  deriving DecidableEq, Repr

/-- The `error` values that flow through the file.
* `external e`: an error returned by a collaborator (machine lookup, remote
  client), passed on unchanged;
* `unexpectedFormat id`: `fmt.Errorf("unexpected format of ID (%q), expected
  MACHINE:NETWORK_INTERFACE", id)`;
* `notFound identifier machine`: `fmt.Errorf("physical network interface (%s)
  was not found on machine (%s)", identifier, machine)`;
* `numError fn num kind`: the `*strconv.NumError` of `strconv.Atoi`;
* `setFailed key`: the error of `d.Set(key, v)` for a key the schema does not
  declare ("Invalid address to set") or a value of another type than the
  declared one. -/
inductive Error where
  | external (e : String)
  | unexpectedFormat (id : String)
  | notFound (identifier : String) (machineSystemID : String)
  | numError (fn : String) (num : String) (kind : NumErrKind)
  | setFailed (key : String)
  deriving DecidableEq, Repr

/-- The text of the error built in `getNetworkInterfaceBridge`. -/
def notFoundMessage (identifier machineSystemID : String) : String :=
  "physical network interface (" ++ identifier ++ ") was not found on machine ("
    ++ machineSystemID ++ ")"

/-- The outcome of a lifecycle callback: no diagnostics, error diagnostics
(`diag.FromErr`), or a panic. -/
inductive Res (α : Type) where
  | ok (a : α)
  | err (e : Error)
  | panic (p : Panic)
  deriving DecidableEq, Repr

deriving instance DecidableEq for Except

/-- The assertion `x.(string)`. -/
def assertString : Value → Except Panic String
  | .str s => .ok s
  | v => .error ⟨v.ty, .string⟩

/-- The assertion `x.(int)`. -/
def assertInt : Value → Except Panic Int
  | .int n => .ok n
  | v => .error ⟨v.ty, .int⟩

/-- The assertion `x.(bool)`. -/
def assertBool : Value → Except Panic Bool
  | .bool b => .ok b
  | v => .error ⟨v.ty, .bool⟩

/-! ## Strings: `strings.Split`, `fmt.Sprintf("%v", _)`, `strconv.Atoi` -/

/-- Splitting a character sequence at every occurrence of a one-character
separator; `k` occurrences give `k + 1` pieces. -/
def splitChars (sep : Char) : List Char → List (List Char)
  | [] => [[]]
  | c :: cs =>
    if c = sep then [] :: splitChars sep cs
    else
      match splitChars sep cs with
      | p :: ps => (c :: p) :: ps
      | [] => [[c]]

/-- The call `strings.Split(s, sep)` for a one-character separator. -/
def stringsSplit (s : String) (sep : Char) : List String :=
  (splitChars sep s.data).map String.mk

/-- The decimal digit character of `d % 10`. -/
def digitChar (d : Nat) : Char := Char.ofNat (48 + d % 10)

/-- Decimal digits of a natural number, most significant first; the first
argument bounds the number of digits. -/
def natCharsFuel : Nat → Nat → List Char
  | 0, n => [digitChar n]
  | fuel + 1, n =>
    if n < 10 then [digitChar n] else natCharsFuel fuel (n / 10) ++ [digitChar n]

/-- Decimal digits of a natural number. -/
def natChars (n : Nat) : List Char := natCharsFuel n n

/-- Decimal rendering of an integer, with a leading `-` when negative. -/
def intChars : Int → List Char
  | .ofNat k => natChars k
  | .negSucc k => '-' :: natChars (k + 1)

/-- The call `fmt.Sprintf("%v", n)` for an `int`. -/
def sprintfInt (n : Int) : String := String.mk (intChars n)

/-- The call `fmt.Sprintf("%v", xs)` for a `[]string`: the elements separated
by blanks, inside square brackets. -/
def sprintfStrings (xs : List String) : String :=
  "[" ++ " ".intercalate xs ++ "]"

/-- The value of a decimal digit character, if it is one. -/
def digitVal (c : Char) : Option Nat :=
  if 48 ≤ c.toNat ∧ c.toNat ≤ 57 then some (c.toNat - 48) else none

/-- Largest value of a `uint64`. -/
def maxUint64 : Nat := 2 ^ 64 - 1

/-- The digit loop of `strconv.ParseUint` in base 10 at 64 bits: at each
character, `ErrSyntax` if it is not a decimal digit, `ErrRange` as soon as
`n*10` or `n*10 + digit` no longer fits a `uint64`, else `n = n*10 + digit`. -/
def parseUint : List Char → Nat → Except NumErrKind Nat
  | [], acc => .ok acc
  | c :: cs, acc =>
    match digitVal c with
    | none => .error .syntaxErr
    | some v =>
      if acc ≥ maxUint64 / 10 + 1 then .error .rangeErr
      else if acc * 10 + v > maxUint64 then .error .rangeErr
      else parseUint cs (acc * 10 + v)

/-- Smallest value of the 64-bit Go `int`. -/
def minInt : Int := -(2 ^ 63)

/-- Largest value of the 64-bit Go `int`. -/
def maxInt : Int := 2 ^ 63 - 1

/-- Removal of one optional leading sign, as `strconv` does. -/
def stripSign : List Char → Bool × List Char
  | [] => (false, [])
  | c :: rest =>
    if c = '-' then (true, rest)
    else if c = '+' then (false, rest)
    else (false, c :: rest)

/-- The call `strconv.Atoi(s)`: an optional sign followed by at least one
character, else `ErrSyntax`; then the digit loop, whose failure is passed on;
a value outside the `int` range is `ErrRange`. -/
def Atoi (s : String) : Except Error Int :=
  match stripSign s.data with
  | (_, []) => .error (.numError "Atoi" s .syntaxErr)
  | (neg, c :: cs) =>
    match parseUint (c :: cs) 0 with
    | .error kind => .error (.numError "Atoi" s kind)
    | .ok v =>
      let n : Int := if neg then -(v : Int) else (v : Int)
      if minInt ≤ n ∧ n ≤ maxInt then .ok n
      else .error (.numError "Atoi" s .rangeErr)

/-! ## Entities of the remote service -/

/-- The part of `entity.VLAN` the file reads. -/
structure VLAN where
  ID : Int
  deriving DecidableEq, Repr

/-- The part of `entity.NetworkInterface` the file reads (`Type_` is the Go
field `Type`). -/
structure NetworkInterface where
  ID : Int
  Type_ : String
  MACAddress : String
  Name : String
  Parents : List String
  VLAN : VLAN
  Tags : List String
  EffectiveMTU : Int
  deriving DecidableEq, Repr

/-- The part of `entity.Machine` the file reads. -/
structure Machine where
  SystemID : String
  deriving DecidableEq, Repr

/-- The fields of `entity.NetworkInterfaceBridgeParams` the file assigns. -/
structure NetworkInterfaceBridgeParams where
  Parent : Int
  Bridgetype : String
  BridgeSTP : Bool
  BridgeFD : Int
  deriving DecidableEq, Repr

/-! ## Resource data -/

/-- The schema of the resource: attribute name and type. -/
def schema : List (String × Ty) :=
  [("machine", .string), ("mac_address", .string), ("vlan", .string),
   ("name", .string), ("tags", .set), ("mtu", .int)]

/-- First value stored under a key. -/
def lookupKey {β : Type} (key : String) : List (String × β) → Option β
  | [] => none
  | (k, v) :: rest => if k = key then some v else lookupKey key rest

/-- The local record of a resource: its identifier and its attributes. -/
structure ResourceData where
  id : String
  attrs : List (String × Value)
  deriving DecidableEq, Repr

/-- The method `d.Id()`. -/
def ResourceData.Id (d : ResourceData) : String := d.id

/-- The method `d.SetId(v)`. -/
def ResourceData.SetId (d : ResourceData) (v : String) : ResourceData :=
  { d with id := v }

/-- The method `d.Get(key)`: `nil` for a key outside the schema; for a key of
the schema the stored value, or the zero value of the attribute type when
nothing is stored. -/
def ResourceData.Get (d : ResourceData) (key : String) : Value :=
  match lookupKey key schema with
  | none => .nil
  | some ty =>
    match lookupKey key d.attrs with
    | some v => v
    | none => ty.zero

/-- Schema validity: every stored value of a schema attribute has the type
the schema declares for it. -/
def ResourceData.schemaValid (d : ResourceData) : Bool :=
  schema.all fun p =>
    match lookupKey p.1 d.attrs with
    | some v => decide (v.ty = p.2)
    | none => true

/-- Overwriting one attribute. -/
def setAttr (key : String) (v : Value) (attrs : List (String × Value)) :
    List (String × Value) :=
  (key, v) :: attrs.filter fun p => decide (p.1 ≠ key)

/-- The method `d.Set(key, v)`: it writes attributes the schema declares, with
a value of the declared type, and fails for every other key; the resource
identifier is not an attribute of the schema and is written by `SetId`
alone. -/
def ResourceData.Set (d : ResourceData) (key : String) (v : Value) :
    Except Error ResourceData :=
  match lookupKey key schema with
  | none => .error (.setFailed key)
  | some ty =>
    if v.ty = ty then .ok { id := d.id, attrs := setAttr key v d.attrs }
    else .error (.setFailed key)

/-- Modelled from the spec: `setTerraformState` is defined elsewhere in the
repository. Following the spec ("emits persisted state populated from the
resolved entity's fields", "map remote fields into observed state") it writes
every pair of the given map into the resource data with `d.Set`; a failure of
`d.Set` is returned and ends the writing. -/
def setTerraformState (d : ResourceData) :
    List (String × Value) → Except Error ResourceData
  | [] => .ok d
  | (k, v) :: rest =>
    match d.Set k v with
    | .error e => .error e
    | .ok d1 => setTerraformState d1 rest

/-! ## The remote service -/

/-- A call made to a collaborator. -/
inductive Call where
  | getMachine (identifier : String)
  | listInterfaces (systemID : String)
  | getInterface (systemID : String) (id : Int)
  | createBridge (systemID : String) (params : NetworkInterfaceBridgeParams)
  | updateInterface (systemID : String) (id : Int)
      (params : NetworkInterfaceBridgeParams)
  | deleteInterface (systemID : String) (id : Int)
  deriving DecidableEq, Repr

/-- The collaborators, as functions of the state `σ` of the remote service.
The three reading operations do not change the remote state; the three
mutating ones return the new state. An error is an opaque value. -/
structure Client (σ : Type) where
  resolveMachine : σ → String → Except String Machine
  listInterfaces : σ → String → Except String (List NetworkInterface)
  getInterface : σ → String → Int → Except String NetworkInterface
  createBridge : σ → String → NetworkInterfaceBridgeParams →
    Except String NetworkInterface × σ
  updateInterface : σ → String → Int → NetworkInterfaceBridgeParams →
    Except String NetworkInterface × σ
  deleteInterface : σ → String → Int → Except String Unit × σ

/-- The remote state together with the log of the calls made so far, oldest
first. -/
structure World (σ : Type) where
  remote : σ
  calls : List Call
  deriving DecidableEq

/-- Appending a call to the log. -/
def World.record {σ : Type} (w : World σ) (c : Call) : World σ :=
  { w with calls := w.calls ++ [c] }

/-- Turning a collaborator's error into the `error` passed on. -/
def liftExt {α : Type} : Except String α → Except Error α
  | .ok a => .ok a
  | .error e => .error (.external e)

/-- Modelled from the spec: `getMachine` is defined elsewhere in the
repository; the spec describes it as the collaborator
`resolveMachine(identifier) → {systemId}`, which may fail. -/
def getMachine {σ : Type} (c : Client σ) (identifier : String) (w : World σ) :
    Except Error Machine × World σ :=
  (liftExt (c.resolveMachine w.remote identifier), w.record (.getMachine identifier))

/-- The call `client.NetworkInterfaces.Get(systemID)`. -/
def clientNetworkInterfacesGet {σ : Type} (c : Client σ) (systemID : String)
    (w : World σ) : Except Error (List NetworkInterface) × World σ :=
  (liftExt (c.listInterfaces w.remote systemID), w.record (.listInterfaces systemID))

/-- The call `client.NetworkInterface.Get(systemID, id)`. -/
def clientNetworkInterfaceGet {σ : Type} (c : Client σ) (systemID : String)
    (id : Int) (w : World σ) : Except Error NetworkInterface × World σ :=
  (liftExt (c.getInterface w.remote systemID id), w.record (.getInterface systemID id))

/-- The call `client.NetworkInterfaces.CreateBridge(systemID, params)`. -/
def clientCreateBridge {σ : Type} (c : Client σ) (systemID : String)
    (params : NetworkInterfaceBridgeParams) (w : World σ) :
    Except Error NetworkInterface × World σ :=
  (liftExt (c.createBridge w.remote systemID params).1,
    { remote := (c.createBridge w.remote systemID params).2,
      calls := w.calls ++ [.createBridge systemID params] })

/-- The call `client.NetworkInterface.Update(systemID, id, params)`. -/
def clientNetworkInterfaceUpdate {σ : Type} (c : Client σ) (systemID : String)
    (id : Int) (params : NetworkInterfaceBridgeParams) (w : World σ) :
    Except Error NetworkInterface × World σ :=
  (liftExt (c.updateInterface w.remote systemID id params).1,
    { remote := (c.updateInterface w.remote systemID id params).2,
      calls := w.calls ++ [.updateInterface systemID id params] })

/-- The call `client.NetworkInterface.Delete(systemID, id)`. -/
def clientNetworkInterfaceDelete {σ : Type} (c : Client σ) (systemID : String)
    (id : Int) (w : World σ) : Except Error Unit × World σ :=
  (liftExt (c.deleteInterface w.remote systemID id).1,
    { remote := (c.deleteInterface w.remote systemID id).2,
      calls := w.calls ++ [.deleteInterface systemID id] })

/-! ## The lookup helpers -/

/-- The loop of `findNetworkInterfaceBridge`: skip every interface whose type
is not "bridge", return the first remaining one whose MAC address, name or
printed ID equals the identifier, `nil` when the list is exhausted. -/
def findLoop (identifier : String) : List NetworkInterface → Option NetworkInterface
  | [] => none
  | n :: rest =>
    if n.Type_ ≠ "bridge" then findLoop identifier rest
    else if n.MACAddress = identifier ∨ n.Name = identifier
        ∨ sprintfInt n.ID = identifier then some n
    else findLoop identifier rest

/-- The function `findNetworkInterfaceBridge`: one list call, its error passed
on, else the result of the loop. -/
def findNetworkInterfaceBridge {σ : Type} (c : Client σ) (machineSystemID : String)
    (identifier : String) (w : World σ) :
    Except Error (Option NetworkInterface) × World σ :=
  match clientNetworkInterfacesGet c machineSystemID w with
  | (.error e, w1) => (.error e, w1)
  | (.ok networkInterfaces, w1) => (.ok (findLoop identifier networkInterfaces), w1)

/-- The function `getNetworkInterfaceBridge`. -/
def getNetworkInterfaceBridge {σ : Type} (c : Client σ) (machineSystemID : String)
    (identifier : String) (w : World σ) : Except Error NetworkInterface × World σ :=
  match findNetworkInterfaceBridge c machineSystemID identifier w with
  | (.error e, w1) => (.error e, w1)
  | (.ok (some n), w1) => (.ok n, w1)
  | (.ok none, w1) => (.error (.notFound identifier machineSystemID), w1)

/-! ## The parameter mapping -/

/-- The function `getNetworkInterfaceBridgeParams`: the four fields of the
literal are evaluated in order, each a `d.Get` followed by a type assertion. -/
def getNetworkInterfaceBridgeParams (d : ResourceData) :
    Except Panic NetworkInterfaceBridgeParams :=
  match assertInt (d.Get "mac_address") with
  | .error p => .error p
  | .ok parent =>
    match assertString (d.Get "vlan") with
    | .error p => .error p
    | .ok bridgetype =>
      match assertBool (d.Get "name") with
      | .error p => .error p
      | .ok bridgeSTP =>
        match assertInt (d.Get "mtu") with
        | .error p => .error p
        | .ok bridgeFD =>
          .ok { Parent := parent, Bridgetype := bridgetype,
                BridgeSTP := bridgeSTP, BridgeFD := bridgeFD }

/-! ## The lifecycle callbacks -/

/-- The function `resourceNetworkInterfaceBridgeRead`. -/
def resourceNetworkInterfaceBridgeRead {σ : Type} (c : Client σ) (d : ResourceData)
    (w : World σ) : Res Unit × ResourceData × World σ :=
  match assertString (d.Get "machine") with
  | .error p => (.panic p, d, w)
  | .ok identifier =>
    match getMachine c identifier w with
    | (.error e, w1) => (.err e, d, w1)
    | (.ok machine, w1) =>
      match Atoi d.Id with
      | .error e => (.err e, d, w1)
      | .ok id =>
        match clientNetworkInterfaceGet c machine.SystemID id w1 with
        | (.error e, w2) => (.err e, d, w2)
        | (.ok networkInterface, w2) =>
          match setTerraformState d
              [("name", .str networkInterface.Name),
               ("tags", .set networkInterface.Tags),
               ("mtu", .int networkInterface.EffectiveMTU)] with
          | .error e => (.err e, d, w2)
          | .ok d1 => (.ok (), d1, w2)

/-- The function `resourceNetworkInterfaceBridgeUpdate`; the arguments of the
remote update call, the parameter mapping among them, are evaluated before the
call. -/
def resourceNetworkInterfaceBridgeUpdate {σ : Type} (c : Client σ) (d : ResourceData)
    (w : World σ) : Res Unit × ResourceData × World σ :=
  match assertString (d.Get "machine") with
  | .error p => (.panic p, d, w)
  | .ok identifier =>
    match getMachine c identifier w with
    | (.error e, w1) => (.err e, d, w1)
    | (.ok machine, w1) =>
      match Atoi d.Id with
      | .error e => (.err e, d, w1)
      | .ok id =>
        match getNetworkInterfaceBridgeParams d with
        | .error p => (.panic p, d, w1)
        | .ok params =>
          match clientNetworkInterfaceUpdate c machine.SystemID id params w1 with
          | (.error e, w2) => (.err e, d, w2)
          | (.ok _, w2) => resourceNetworkInterfaceBridgeRead c d w2

/-- The function `resourceNetworkInterfaceBridgeDelete`. -/
def resourceNetworkInterfaceBridgeDelete {σ : Type} (c : Client σ) (d : ResourceData)
    (w : World σ) : Res Unit × ResourceData × World σ :=
  match assertString (d.Get "machine") with
  | .error p => (.panic p, d, w)
  | .ok identifier =>
    match getMachine c identifier w with
    | (.error e, w1) => (.err e, d, w1)
    | (.ok machine, w1) =>
      match Atoi d.Id with
      | .error e => (.err e, d, w1)
      | .ok id =>
        match clientNetworkInterfaceDelete c machine.SystemID id w1 with
        | (.error e, w2) => (.err e, d, w2)
        | (.ok _, w2) => (.ok (), d, w2)

/-- The function `resourceNetworkInterfaceBridgeCreate`. -/
def resourceNetworkInterfaceBridgeCreate {σ : Type} (c : Client σ) (d : ResourceData)
    (w : World σ) : Res Unit × ResourceData × World σ :=
  match assertString (d.Get "machine") with
  | .error p => (.panic p, d, w)
  | .ok identifier =>
    match getMachine c identifier w with
    | (.error e, w1) => (.err e, d, w1)
    | (.ok machine, w1) =>
      match assertString (d.Get "mac_address") with
      | .error p => (.panic p, d, w1)
      | .ok macAddress =>
        match findNetworkInterfaceBridge c machine.SystemID macAddress w1 with
        | (.error e, w2) => (.err e, d, w2)
        | (.ok (some networkInterface), w2) =>
          resourceNetworkInterfaceBridgeUpdate c
            (d.SetId (sprintfInt networkInterface.ID)) w2
        | (.ok none, w2) =>
          match getNetworkInterfaceBridgeParams d with
          | .error p => (.panic p, d, w2)
          | .ok params =>
            match clientCreateBridge c machine.SystemID params w2 with
            | (.error e, w3) => (.err e, d, w3)
            | (.ok networkInterface, w3) =>
              resourceNetworkInterfaceBridgeUpdate c
                (d.SetId (sprintfInt networkInterface.ID)) w3

/-! ## The import handler -/

/-- The `StateContext` function of the importer. The guard reads the pieces
of the split by index; `strings.Split` never returns an empty list, and the
second index is only read when the length is two. -/
def importerStateContext {σ : Type} (c : Client σ) (d : ResourceData) (w : World σ) :
    Except Error (List ResourceData) × World σ :=
  let idParts := stringsSplit d.Id ':'
  if idParts.length ≠ 2 ∨ idParts.getD 0 "" = "" ∨ idParts.getD 1 "" = "" then
    (.error (.unexpectedFormat d.Id), w)
  else
    match getMachine c (idParts.getD 0 "") w with
    | (.error e, w1) => (.error e, w1)
    | (.ok machine, w1) =>
      match getNetworkInterfaceBridge c machine.SystemID (idParts.getD 1 "") w1 with
      | (.error e, w2) => (.error e, w2)
      | (.ok n, w2) =>
        match setTerraformState d
            [("id", .str (sprintfInt n.ID)),
             ("machine", .str machine.SystemID),
             ("parent", .str (sprintfStrings n.Parents)),
             ("bridge_type", .str n.Type_),
             ("mac_address", .str n.MACAddress),
             ("vlan", .str (sprintfInt n.VLAN.ID))] with
        | .error e => (.error e, w2)
        | .ok d1 => (.ok [d1], w2)

/-! ## A model of the remote service -/

/-- Modelled from the spec: the remote service behind the client is not part
of the file. This model keeps, per machine, the list of its interfaces;
machines are resolved from a table of identifiers, `createBridge` adds one
bridge interface on the machine, carrying the MAC address of the parent
interface named by the parameters, and `deleteInterface` removes one. -/
structure Remote where
  machines : List (String × String)
  interfaces : List (String × NetworkInterface)
  nextID : Int
  deriving DecidableEq, Repr

/-- The interfaces of one machine, in list order. -/
def Remote.interfacesOf (r : Remote) (systemID : String) : List NetworkInterface :=
  (r.interfaces.filter fun p => decide (p.1 = systemID)).map fun p => p.2

/-- The number of bridge interfaces of one machine. -/
def Remote.bridgeCount (r : Remote) (systemID : String) : Nat :=
  ((r.interfacesOf systemID).filter fun n => decide (n.Type_ = "bridge")).length

/-- The interface of a machine with the given numeric ID. -/
def Remote.interfaceByID (r : Remote) (systemID : String) (id : Int) :
    Option NetworkInterface :=
  (r.interfacesOf systemID).find? fun n => decide (n.ID = id)

/-- The client of the model service. -/
def remoteClient : Client Remote where
  resolveMachine r identifier :=
    match lookupKey identifier r.machines with
    | some systemID => .ok ⟨systemID⟩
    | none => .error "machine not found"
  listInterfaces r systemID := .ok (r.interfacesOf systemID)
  getInterface r systemID id :=
    match r.interfaceByID systemID id with
    | some n => .ok n
    | none => .error "interface not found"
  createBridge r systemID params :=
    match r.interfaceByID systemID params.Parent with
    | none => (.error "parent interface not found", r)
    | some parent =>
      let bridge : NetworkInterface :=
        { ID := r.nextID, Type_ := "bridge", MACAddress := parent.MACAddress,
          Name := "br-" ++ parent.Name, Parents := [parent.Name],
          VLAN := parent.VLAN, Tags := [], EffectiveMTU := parent.EffectiveMTU }
      (.ok bridge,
        { r with interfaces := r.interfaces ++ [(systemID, bridge)],
                 nextID := r.nextID + 1 })
  updateInterface r systemID id _ :=
    match r.interfaceByID systemID id with
    | some n => (.ok n, r)
    | none => (.error "interface not found", r)
  deleteInterface r systemID id :=
    match r.interfaceByID systemID id with
    | some _ =>
      (.ok (),
        { r with interfaces :=
            r.interfaces.filter fun p => !(decide (p.1 = systemID) && decide (p.2.ID = id)) })
    | none => (.error "interface not found", r)

/-- The bridge of the scenario: id 5, MAC "AA:BB", name "br0". -/
def br0 : NetworkInterface :=
  { ID := 5, Type_ := "bridge", MACAddress := "AA:BB", Name := "br0",
    Parents := ["eth0"], VLAN := ⟨1⟩, Tags := [], EffectiveMTU := 1500 }

/-- The physical interface of the scenario: id 6, MAC "AA:BB", name "eth0". -/
def eth0 : NetworkInterface :=
  { ID := 6, Type_ := "physical", MACAddress := "AA:BB", Name := "eth0",
    Parents := [], VLAN := ⟨1⟩, Tags := [], EffectiveMTU := 1500 }

/-- The scenario machine `m1` with the bridge listed first. -/
def remoteM1 : Remote :=
  { machines := [("m1", "m1")], interfaces := [("m1", br0), ("m1", eth0)], nextID := 7 }

/-- The scenario machine `m1` with the physical interface listed first. -/
def remoteM1Swapped : Remote :=
  { machines := [("m1", "m1")], interfaces := [("m1", eth0), ("m1", br0)], nextID := 7 }

/-- The condition of the lookup, in the words of the specification: the
interface is of type "bridge" and its MAC address, its name or its ID printed
in decimal equals the identifier. -/
def IsBridgeMatch (identifier : String) (n : NetworkInterface) : Prop :=
  n.Type_ = "bridge" ∧
    (n.MACAddress = identifier ∨ n.Name = identifier ∨ sprintfInt n.ID = identifier)

instance (identifier : String) (n : NetworkInterface) :
    Decidable (IsBridgeMatch identifier n) := by
  unfold IsBridgeMatch; infer_instance

/-- The local record after a successful read: the attributes `name`, `tags`
and `mtu` overwritten with the remote name, tags and effective MTU. -/
def refreshed (d : ResourceData) (networkInterface : NetworkInterface) : ResourceData :=
  { id := d.id
    attrs :=
      (setAttr "mtu" (.int networkInterface.EffectiveMTU)
        (setAttr "tags" (.set networkInterface.Tags)
          (setAttr "name" (.str networkInterface.Name) d.attrs))) }

/-- The machine `m1` with its physical interface only, no bridge yet. -/
def remoteNoBridge : Remote :=
  { machines := [("m1", "m1")], interfaces := [("m1", eth0)], nextID := 7 }

/-- Desired state: a bridge on machine `m1` over MAC "AA:BB"; nothing created
yet, so the stored identifier is empty. -/
def desiredM1 : ResourceData :=
  { id := "", attrs := [("machine", .str "m1"), ("mac_address", .str "AA:BB")] }

/-- The local record of the managed bridge `br0` of machine `m1`: stored
identifier "5". -/
def managedBr0 : ResourceData :=
  { id := "5", attrs := [("machine", .str "m1"), ("mac_address", .str "AA:BB")] }

/-- A bridge with a colon-separated MAC address, id 5, name "br0". -/
def brMac : NetworkInterface :=
  { ID := 5, Type_ := "bridge", MACAddress := "AA:BB:CC:DD:EE:FF", Name := "br0",
    Parents := ["eth0"], VLAN := ⟨1⟩, Tags := [], EffectiveMTU := 1500 }

/-- The machine "machine123" carrying the bridge `brMac`. -/
def remoteMachine123 : Remote :=
  { machines := [("machine123", "machine123")],
    interfaces := [("machine123", brMac)], nextID := 6 }

/-! ## The lookup -/

theorem findLoop_eq_find (identifier : String) (l : List NetworkInterface) :
    findLoop identifier l = l.find? fun n => decide (IsBridgeMatch identifier n) := by
  induction l with
  | nil => rfl
  | cons n rest ih =>
    unfold findLoop
    by_cases hb : n.Type_ = "bridge"
    · by_cases hm : n.MACAddress = identifier ∨ n.Name = identifier
          ∨ sprintfInt n.ID = identifier
      · have : IsBridgeMatch identifier n := ⟨hb, hm⟩
        simp [hb, hm, List.find?, this]
      · have : ¬ IsBridgeMatch identifier n := fun h => hm h.2
        simp only [ne_eq, hb, not_true_eq_false, if_false, if_neg hm, ih]
        simp [List.find?, this]
    · have : ¬ IsBridgeMatch identifier n := fun h => hb h.1
      simp only [ne_eq, hb, not_false_eq_true, if_true, ih]
      simp [List.find?, this]

theorem findLoop_some_iff (identifier : String) (l : List NetworkInterface)
    (n : NetworkInterface) :
    findLoop identifier l = some n ↔
      ∃ pre post, l = pre ++ n :: post ∧ IsBridgeMatch identifier n ∧
        ∀ m ∈ pre, ¬ IsBridgeMatch identifier m := by
  rw [findLoop_eq_find, List.find?_eq_some]
  constructor
  · rintro ⟨hn, pre, post, hl, hpre⟩
    exact ⟨pre, post, hl, by simpa using hn, fun m hm => by simpa using hpre m hm⟩
  · rintro ⟨pre, post, hl, hn, hpre⟩
    exact ⟨by simpa using hn, pre, post, hl, fun m hm => by simpa using hpre m hm⟩

theorem findLoop_none_iff (identifier : String) (l : List NetworkInterface) :
    findLoop identifier l = none ↔ ∀ m ∈ l, ¬ IsBridgeMatch identifier m := by
  rw [findLoop_eq_find, List.find?_eq_none]
  simp

theorem findLoop_filter (identifier : String) (l : List NetworkInterface) :
    findLoop identifier l
      = findLoop identifier (l.filter fun n => decide (n.Type_ = "bridge")) := by
  induction l with
  | nil => rfl
  | cons n rest ih =>
    by_cases hb : n.Type_ = "bridge"
    · rw [List.filter_cons_of_pos (by simpa using hb)]
      unfold findLoop
      simp only [ne_eq, hb, not_true_eq_false, if_false, ih]
    · rw [List.filter_cons_of_neg (by simpa using hb), ← ih]
      conv_lhs => unfold findLoop
      simp only [ne_eq, hb, not_false_eq_true, if_true]

theorem findNetworkInterfaceBridge_fst {σ : Type} (c : Client σ)
    (machineSystemID identifier : String) (w : World σ) :
    (findNetworkInterfaceBridge c machineSystemID identifier w).1 =
      match c.listInterfaces w.remote machineSystemID with
      | .ok l => .ok (findLoop identifier l)
      | .error e => .error (.external e) := by
  unfold findNetworkInterfaceBridge clientNetworkInterfacesGet
  cases c.listInterfaces w.remote machineSystemID <;> rfl

theorem findNetworkInterfaceBridge_snd {σ : Type} (c : Client σ)
    (machineSystemID identifier : String) (w : World σ) :
    (findNetworkInterfaceBridge c machineSystemID identifier w).2 =
      w.record (.listInterfaces machineSystemID) := by
  unfold findNetworkInterfaceBridge clientNetworkInterfacesGet
  cases c.listInterfaces w.remote machineSystemID <;> rfl

/-- C1: `findNetworkInterfaceBridge` passes a failure of the list call on and
otherwise runs the loop on the returned list; the loop returns an interface
`n` exactly when `n` is the first element, in list order, that is of type
"bridge" and whose MAC address, name or decimal ID equals the identifier, and
it returns `nil` (without error) exactly when no element of the list satisfies
that condition. -/
theorem C1_find_first_bridge_match {σ : Type} (c : Client σ)
    (machineSystemID identifier : String) (w : World σ) :
    (findNetworkInterfaceBridge c machineSystemID identifier w).1 =
        (match c.listInterfaces w.remote machineSystemID with
         | .ok l => .ok (findLoop identifier l)
         | .error e => .error (.external e)) ∧
      ∀ l : List NetworkInterface,
        (∀ n, findLoop identifier l = some n ↔
          ∃ pre post, l = pre ++ n :: post ∧ IsBridgeMatch identifier n ∧
            ∀ m ∈ pre, ¬ IsBridgeMatch identifier m) ∧
        (findLoop identifier l = none ↔ ∀ m ∈ l, ¬ IsBridgeMatch identifier m) :=
  ⟨findNetworkInterfaceBridge_fst c machineSystemID identifier w,
    fun l => ⟨findLoop_some_iff identifier l, findLoop_none_iff identifier l⟩⟩

/-- C2: non-bridge interfaces are ignored by `findNetworkInterfaceBridge`: the
loop gives the same result on the list with every non-bridge element removed,
and whatever it returns is of type "bridge". On the scenario machine, in
either list order, looking up "AA:BB" returns the id-5 bridge, and looking up
"eth0" or "6" (name and ID of the physical interface) returns not found. -/
theorem C2_non_bridge_ignored :
    (∀ (identifier : String) (l : List NetworkInterface),
      findLoop identifier l
        = findLoop identifier (l.filter fun n => decide (n.Type_ = "bridge"))) ∧
    (∀ (identifier : String) (l : List NetworkInterface) (n : NetworkInterface),
      findLoop identifier l = some n → n.Type_ = "bridge") ∧
    (findNetworkInterfaceBridge remoteClient "m1" "AA:BB" ⟨remoteM1, []⟩).1
      = .ok (some br0) ∧
    (findNetworkInterfaceBridge remoteClient "m1" "AA:BB" ⟨remoteM1Swapped, []⟩).1
      = .ok (some br0) ∧
    (findNetworkInterfaceBridge remoteClient "m1" "eth0" ⟨remoteM1, []⟩).1 = .ok none ∧
    (findNetworkInterfaceBridge remoteClient "m1" "eth0" ⟨remoteM1Swapped, []⟩).1
      = .ok none ∧
    (findNetworkInterfaceBridge remoteClient "m1" "6" ⟨remoteM1, []⟩).1 = .ok none ∧
    (findNetworkInterfaceBridge remoteClient "m1" "6" ⟨remoteM1Swapped, []⟩).1
      = .ok none ∧
    br0.ID = 5 := by
  refine ⟨findLoop_filter, ?_, ?_, ?_, ?_, ?_, ?_, ?_, rfl⟩
  · intro identifier l n h
    exact ((findLoop_some_iff identifier l n).1 h).choose_spec.choose_spec.2.1.1
  all_goals decide

/-! ## Splitting the import token -/

theorem splitChars_ne_nil (sep : Char) (cs : List Char) : splitChars sep cs ≠ [] := by
  induction cs with
  | nil => simp [splitChars]
  | cons c cs ih =>
    unfold splitChars
    split
    · simp
    · split <;> simp

theorem splitChars_of_not_mem (sep : Char) (cs : List Char) (h : sep ∉ cs) :
    splitChars sep cs = [cs] := by
  induction cs with
  | nil => rfl
  | cons c cs ih =>
    have hc : c ≠ sep := fun e => h (by simp [e])
    have hcs : sep ∉ cs := fun e => h (by simp [e])
    unfold splitChars
    rw [if_neg hc, ih hcs]

theorem splitChars_append_sep (sep : Char) (a b : List Char) (h : sep ∉ a) :
    splitChars sep (a ++ sep :: b) = a :: splitChars sep b := by
  induction a with
  | nil => simp [splitChars]
  | cons c cs ih =>
    have hc : c ≠ sep := fun e => h (by simp [e])
    have hcs : sep ∉ cs := fun e => h (by simp [e])
    rw [List.cons_append]
    conv_lhs => unfold splitChars
    rw [if_neg hc, ih hcs]

theorem splitChars_pair (sep : Char) (a b : List Char) (ha : sep ∉ a) (hb : sep ∉ b) :
    splitChars sep (a ++ sep :: b) = [a, b] := by
  rw [splitChars_append_sep sep a b ha, splitChars_of_not_mem sep b hb]

theorem splitChars_eq_pair (sep : Char) (cs a b : List Char)
    (h : splitChars sep cs = [a, b]) : cs = a ++ sep :: b ∧ sep ∉ a ∧ sep ∉ b := by
  induction cs generalizing a with
  | nil => simp [splitChars] at h
  | cons c cs ih =>
    unfold splitChars at h
    by_cases hc : c = sep
    · rw [if_pos hc] at h
      have h1 : a = [] := by simpa using (List.cons.inj h).1.symm
      have h2 : splitChars sep cs = [b] := (List.cons.inj h).2
      subst h1
      have hb : sep ∉ b ∧ cs = b := by
        clear ih h
        induction cs generalizing b with
        | nil =>
          simp [splitChars] at h2
          subst h2
          simp
        | cons x xs ihx =>
          unfold splitChars at h2
          by_cases hx : x = sep
          · rw [if_pos hx] at h2
            exact absurd (List.cons.inj h2).2 (splitChars_ne_nil sep xs)
          · rw [if_neg hx] at h2
            cases hs : splitChars sep xs with
            | nil => exact absurd hs (splitChars_ne_nil sep xs)
            | cons p ps =>
              rw [hs] at h2
              simp only [List.cons.injEq] at h2
              obtain ⟨hb, hps⟩ := h2
              subst hps
              subst hb
              obtain ⟨h3, h4⟩ := ihx p hs
              subst h4
              exact ⟨by simp [h3, Ne.symm hx], rfl⟩
      obtain ⟨hb1, hb2⟩ := hb
      subst hb2
      exact ⟨by simp [hc], by simp, hb1⟩
    · rw [if_neg hc] at h
      cases hs : splitChars sep cs with
      | nil => exact absurd hs (splitChars_ne_nil sep cs)
      | cons p ps =>
        rw [hs] at h
        simp only [List.cons.injEq] at h
        obtain ⟨ha, hps⟩ := h
        subst hps
        subst ha
        obtain ⟨h3, h4, h5⟩ := ih p hs
        exact ⟨by simp [h3], by simp [h4, Ne.symm hc], h5⟩

/-- The guard of the importer rejects exactly the splits that are not two
non-empty pieces. -/
theorem import_guard_iff (l : List String) :
    (l.length ≠ 2 ∨ l.getD 0 "" = "" ∨ l.getD 1 "" = "") ↔
      ¬ ∃ a b, l = [a, b] ∧ a ≠ "" ∧ b ≠ "" := by
  match l with
  | [] => simp
  | [a] => simp
  | [a, b] =>
    simp only [List.length_cons, List.length_nil, List.getD_cons_zero, List.getD_cons_succ,
      List.cons.injEq, and_true]
    constructor
    · rintro (h | h | h) ⟨x, y, ⟨rfl, rfl⟩, hx, hy⟩
      · exact h rfl
      · exact hx h
      · exact hy h
    · intro h
      by_contra hc
      push_neg at hc
      exact h ⟨a, b, ⟨rfl, rfl⟩, hc.2.1, hc.2.2⟩
  | a :: b :: x :: r => simp

theorem stringsSplit_pair (m ident : String) (hm : ':' ∉ m.data) (hi : ':' ∉ ident.data) :
    stringsSplit (m ++ ":" ++ ident) ':' = [m, ident] := by
  unfold stringsSplit
  have : (m ++ ":" ++ ident).data = m.data ++ ':' :: ident.data := by
    simp [String.data_append]
  rw [this, splitChars_pair _ _ _ hm hi]
  rfl

/-! ## Local state -/

theorem Set_error (d : ResourceData) (key : String) (v : Value) (e : Error)
    (h : d.Set key v = .error e) : e = .setFailed key := by
  unfold ResourceData.Set at h
  cases hs : lookupKey key schema with
  | none =>
    rw [hs] at h
    exact (Except.error.inj h).symm
  | some ty =>
    rw [hs] at h
    simp only [] at h
    split_ifs at h
    exact (Except.error.inj h).symm

theorem setTerraformState_error (tfState : List (String × Value)) (d : ResourceData)
    (e : Error) (h : setTerraformState d tfState = .error e) :
    ∃ key, e = .setFailed key := by
  induction tfState generalizing d with
  | nil => cases h
  | cons p rest ih =>
    obtain ⟨k, v⟩ := p
    unfold setTerraformState at h
    cases hs : d.Set k v with
    | error e1 =>
      rw [hs] at h
      have he : e1 = e := Except.error.inj h
      subst he
      exact ⟨k, Set_error d k v e1 hs⟩
    | ok d1 =>
      rw [hs] at h
      exact ih d1 h

theorem lookupKey_filter_ne (key k : String) (hk : k ≠ key)
    (attrs : List (String × Value)) :
    lookupKey k (attrs.filter fun p => decide (p.1 ≠ key)) = lookupKey k attrs := by
  induction attrs with
  | nil => rfl
  | cons p rest ih =>
    obtain ⟨k1, v1⟩ := p
    by_cases h1 : k1 = key
    · have hk1 : ¬ k1 = k := fun e => hk (e.symm.trans h1)
      rw [List.filter_cons_of_neg (by simpa using h1), ih]
      conv_rhs => unfold lookupKey
      rw [if_neg hk1]
    · rw [List.filter_cons_of_pos (by simpa using h1)]
      unfold lookupKey
      rw [ih]

theorem lookupKey_setAttr (key k : String) (v : Value) (attrs : List (String × Value)) :
    lookupKey k (setAttr key v attrs) = if k = key then some v else lookupKey k attrs := by
  unfold setAttr
  by_cases hk : k = key
  · subst hk
    simp [lookupKey]
  · have hk2 : ¬ key = k := fun e => hk e.symm
    rw [if_neg hk]
    conv_lhs => unfold lookupKey
    rw [if_neg hk2]
    exact lookupKey_filter_ne key k hk attrs

/-! ## The lookup that requires existence -/

theorem getNetworkInterfaceBridge_fst {σ : Type} (c : Client σ)
    (machineSystemID identifier : String) (w : World σ) :
    (getNetworkInterfaceBridge c machineSystemID identifier w).1 =
      match (findNetworkInterfaceBridge c machineSystemID identifier w).1 with
      | .error e => .error e
      | .ok (some n) => .ok n
      | .ok none => .error (.notFound identifier machineSystemID) := by
  unfold getNetworkInterfaceBridge
  rcases hf : findNetworkInterfaceBridge c machineSystemID identifier w with ⟨r, w1⟩
  rcases r with e | (_ | n) <;> rfl

theorem getNetworkInterfaceBridge_snd {σ : Type} (c : Client σ)
    (machineSystemID identifier : String) (w : World σ) :
    (getNetworkInterfaceBridge c machineSystemID identifier w).2 =
      w.record (.listInterfaces machineSystemID) := by
  rw [← findNetworkInterfaceBridge_snd c machineSystemID identifier w]
  unfold getNetworkInterfaceBridge
  rcases hf : findNetworkInterfaceBridge c machineSystemID identifier w with ⟨r, w1⟩
  rcases r with e | (_ | n) <;> rfl

theorem notFoundMessage_data (identifier machineSystemID : String) :
    (notFoundMessage identifier machineSystemID).data =
      "physical network interface (".data ++ identifier.data ++
        (") was not found on machine (".data ++ machineSystemID.data ++ ")".data) := by
  simp [notFoundMessage, String.data_append]

/-- C7: `getNetworkInterfaceBridge` is `findNetworkInterfaceBridge` with the
"not found" outcome turned into an error. It fails exactly when the list call
fails or the lookup finds nothing; a failure of the list call is returned
unchanged; the not-found error names the identifier and the machine system ID,
and its text contains both; on success the result is the interface the lookup
returned. -/
theorem C7_getNetworkInterfaceBridge {σ : Type} (c : Client σ)
    (machineSystemID identifier : String) (w : World σ) :
    ((∃ e, (getNetworkInterfaceBridge c machineSystemID identifier w).1 = .error e) ↔
      ((∃ e, c.listInterfaces w.remote machineSystemID = .error e) ∨
        (findNetworkInterfaceBridge c machineSystemID identifier w).1 = .ok none)) ∧
    (∀ e, c.listInterfaces w.remote machineSystemID = .error e →
      (findNetworkInterfaceBridge c machineSystemID identifier w).1
          = .error (.external e) ∧
        (getNetworkInterfaceBridge c machineSystemID identifier w).1
          = .error (.external e)) ∧
    ((findNetworkInterfaceBridge c machineSystemID identifier w).1 = .ok none →
      (getNetworkInterfaceBridge c machineSystemID identifier w).1
        = .error (.notFound identifier machineSystemID)) ∧
    (∀ n, (findNetworkInterfaceBridge c machineSystemID identifier w).1 = .ok (some n) →
      (getNetworkInterfaceBridge c machineSystemID identifier w).1 = .ok n) ∧
    identifier.data <:+: (notFoundMessage identifier machineSystemID).data ∧
    machineSystemID.data <:+: (notFoundMessage identifier machineSystemID).data := by
  have hg := getNetworkInterfaceBridge_fst c machineSystemID identifier w
  have hf := findNetworkInterfaceBridge_fst c machineSystemID identifier w
  refine ⟨?_, ?_, ?_, ?_, ?_, ?_⟩
  · rw [hg, hf]
    cases hl : c.listInterfaces w.remote machineSystemID with
    | error e => simp
    | ok l =>
      simp only []
      cases hfl : findLoop identifier l <;> simp
  · intro e he
    rw [hg, hf, he]
    exact ⟨rfl, rfl⟩
  · intro h
    rw [hg, h]
  · intro n h
    rw [hg, h]
  · rw [notFoundMessage_data]
    exact ⟨"physical network interface (".data,
      ") was not found on machine (".data ++ machineSystemID.data ++ ")".data, by simp⟩
  · rw [notFoundMessage_data]
    exact ⟨"physical network interface (".data ++ identifier.data
      ++ ") was not found on machine (".data, ")".data, by simp⟩

/-! ## The import handler -/

theorem importer_reject {σ : Type} (c : Client σ) (d : ResourceData) (w : World σ)
    (h : ¬ ∃ a b, stringsSplit d.Id ':' = [a, b] ∧ a ≠ "" ∧ b ≠ "") :
    importerStateContext c d w = (.error (.unexpectedFormat d.Id), w) := by
  unfold importerStateContext
  simp only []
  rw [if_pos ((import_guard_iff _).2 h)]

theorem importer_accept {σ : Type} (c : Client σ) (d : ResourceData) (w : World σ)
    (a b : String) (h : stringsSplit d.Id ':' = [a, b]) (ha : a ≠ "") (hb : b ≠ "") :
    importerStateContext c d w =
      match getMachine c a w with
      | (.error e, w1) => (.error e, w1)
      | (.ok machine, w1) =>
        match getNetworkInterfaceBridge c machine.SystemID b w1 with
        | (.error e, w2) => (.error e, w2)
        | (.ok n, w2) =>
          match setTerraformState d
              [("id", .str (sprintfInt n.ID)),
               ("machine", .str machine.SystemID),
               ("parent", .str (sprintfStrings n.Parents)),
               ("bridge_type", .str n.Type_),
               ("mac_address", .str n.MACAddress),
               ("vlan", .str (sprintfInt n.VLAN.ID))] with
          | .error e => (.error e, w2)
          | .ok d1 => (.ok [d1], w2) := by
  have hg : ¬ ((stringsSplit d.Id ':').length ≠ 2 ∨ (stringsSplit d.Id ':').getD 0 "" = ""
      ∨ (stringsSplit d.Id ':').getD 1 "" = "") := by
    rw [import_guard_iff]
    exact not_not.2 ⟨a, b, h, ha, hb⟩
  unfold importerStateContext
  simp only []
  rw [if_neg hg, h]
  rfl

theorem importer_accept_ne_format {σ : Type} (c : Client σ) (d : ResourceData)
    (w : World σ) (a b : String) (h : stringsSplit d.Id ':' = [a, b]) (ha : a ≠ "")
    (hb : b ≠ "") (x : String) :
    (importerStateContext c d w).1 ≠ .error (.unexpectedFormat x) := by
  rw [importer_accept c d w a b h ha hb]
  unfold getMachine
  cases hm : c.resolveMachine w.remote a with
  | error e => simp [liftExt]
  | ok machine =>
    simp only [liftExt]
    rcases hgb : getNetworkInterfaceBridge c machine.SystemID b
      (w.record (.getMachine a)) with ⟨r, w2⟩
    have h1 := getNetworkInterfaceBridge_fst c machine.SystemID b (w.record (.getMachine a))
    have h2 := findNetworkInterfaceBridge_fst c machine.SystemID b (w.record (.getMachine a))
    rw [hgb, h2] at h1
    simp only at h1
    cases r with
    | error e =>
      simp only
      intro he
      injection he with he
      subst he
      cases hl : c.listInterfaces (w.record (.getMachine a)).remote machine.SystemID with
      | error e2 => rw [hl] at h1; simp at h1
      | ok l =>
        rw [hl] at h1
        simp only [] at h1
        cases hfl : findLoop b l <;> rw [hfl] at h1 <;> simp at h1
    | ok n =>
      simp only
      cases hst : setTerraformState d
        [("id", .str (sprintfInt n.ID)),
         ("machine", .str machine.SystemID),
         ("parent", .str (sprintfStrings n.Parents)),
         ("bridge_type", .str n.Type_),
         ("mac_address", .str n.MACAddress),
         ("vlan", .str (sprintfInt n.VLAN.ID))] with
      | error e =>
        obtain ⟨key, hkey⟩ := setTerraformState_error _ d e hst
        subst hkey
        simp
      | ok d1 => simp

/-- C3: the importer fails with the format error exactly when splitting the
token at ":" does not give two non-empty pieces; in that case it returns
before any collaborator is called (the remote state and the call log are as
before) and returns no resource data. The tokens "machine123" and
"machine123:" are rejected in this way. -/
theorem C3_import_format_error {σ : Type} (c : Client σ) (d : ResourceData)
    (w : World σ) :
    ((importerStateContext c d w).1 = .error (.unexpectedFormat d.Id) ↔
      ¬ ∃ a b, stringsSplit d.Id ':' = [a, b] ∧ a ≠ "" ∧ b ≠ "") ∧
    ((importerStateContext c d w).1 = .error (.unexpectedFormat d.Id) →
      importerStateContext c d w = (.error (.unexpectedFormat d.Id), w)) ∧
    (∀ attrs, importerStateContext c ⟨"machine123", attrs⟩ w
      = (.error (.unexpectedFormat "machine123"), w)) ∧
    (∀ attrs, importerStateContext c ⟨"machine123:", attrs⟩ w
      = (.error (.unexpectedFormat "machine123:"), w)) := by
  have key : (importerStateContext c d w).1 = .error (.unexpectedFormat d.Id) ↔
      ¬ ∃ a b, stringsSplit d.Id ':' = [a, b] ∧ a ≠ "" ∧ b ≠ "" := by
    constructor
    · rintro h ⟨a, b, hs, ha, hb⟩
      exact importer_accept_ne_format c d w a b hs ha hb _ h
    · intro h
      rw [importer_reject c d w h]
  refine ⟨key, fun h => importer_reject c d w (key.1 h), ?_, ?_⟩
  · intro attrs
    apply importer_reject
    show ¬ ∃ a b, stringsSplit "machine123" ':' = [a, b] ∧ a ≠ "" ∧ b ≠ ""
    rintro ⟨a, b, h, -, -⟩
    have h2 : stringsSplit "machine123" ':' = ["machine123"] := by decide
    rw [h2] at h
    exact absurd (List.cons.inj h).2 (by simp)
  · intro attrs
    apply importer_reject
    show ¬ ∃ a b, stringsSplit "machine123:" ':' = [a, b] ∧ a ≠ "" ∧ b ≠ ""
    rintro ⟨a, b, h, -, hb⟩
    have h2 : stringsSplit "machine123:" ':' = ["machine123", ""] := by decide
    rw [h2] at h
    exact hb (List.cons.inj (List.cons.inj h).2).1.symm

/-! ## Decimal rendering and parsing -/

theorem digitChar_toNat (d : Nat) : (digitChar d).toNat = 48 + d % 10 := by
  have h : d % 10 < 10 := Nat.mod_lt _ (by norm_num)
  unfold digitChar
  generalize d % 10 = k at h
  interval_cases k <;> rfl

theorem digitVal_digitChar (d : Nat) : digitVal (digitChar d) = some (d % 10) := by
  have h : d % 10 < 10 := Nat.mod_lt _ (by norm_num)
  unfold digitVal
  rw [digitChar_toNat]
  rw [if_pos ⟨by omega, by omega⟩]
  congr 1
  omega

theorem digitChar_ne_minus (d : Nat) : digitChar d ≠ '-' := by
  intro h
  have := congrArg Char.toNat h
  rw [digitChar_toNat] at this
  have h2 : ('-' : Char).toNat = 45 := rfl
  omega

theorem digitChar_ne_plus (d : Nat) : digitChar d ≠ '+' := by
  intro h
  have := congrArg Char.toNat h
  rw [digitChar_toNat] at this
  have h2 : ('+' : Char).toNat = 43 := rfl
  omega

theorem maxUint64_eq : maxUint64 = 18446744073709551615 := by decide

theorem parseUint_append (xs ys : List Char) (acc : Nat) :
    parseUint (xs ++ ys) acc =
      match parseUint xs acc with
      | .error kind => .error kind
      | .ok a => parseUint ys a := by
  induction xs generalizing acc with
  | nil => rfl
  | cons c cs ih =>
    simp only [List.cons_append, parseUint]
    cases digitVal c with
    | none => rfl
    | some v =>
      simp only []
      split_ifs
      · rfl
      · rfl
      · exact ih _

theorem parseUint_single (acc d : Nat) (h : acc * 10 + d % 10 ≤ maxUint64) :
    parseUint [digitChar d] acc = .ok (acc * 10 + d % 10) := by
  rw [maxUint64_eq] at h
  simp only [parseUint, digitVal_digitChar, maxUint64_eq]
  rw [if_neg (by omega), if_neg (by omega)]

theorem parseUint_natCharsFuel (fuel n : Nat) (h : n ≤ fuel) (hb : n ≤ maxUint64) :
    parseUint (natCharsFuel fuel n) 0 = .ok n := by
  induction fuel generalizing n with
  | zero =>
    have : n = 0 := by omega
    subst this
    decide
  | succ f ih =>
    have hb2 := hb
    rw [maxUint64_eq] at hb2
    unfold natCharsFuel
    by_cases h10 : n < 10
    · rw [if_pos h10, parseUint_single 0 n (by rw [maxUint64_eq]; omega)]
      congr 1
      omega
    · rw [if_neg h10, parseUint_append,
        ih (n / 10) (by omega) (by rw [maxUint64_eq]; omega)]
      simp only []
      rw [parseUint_single (n / 10) n (by rw [maxUint64_eq]; omega)]
      congr 1
      omega

theorem natCharsFuel_head (fuel n : Nat) :
    ∃ d rest, natCharsFuel fuel n = digitChar d :: rest := by
  induction fuel generalizing n with
  | zero => exact ⟨n, [], rfl⟩
  | succ f ih =>
    unfold natCharsFuel
    by_cases h10 : n < 10
    · rw [if_pos h10]
      exact ⟨n, [], rfl⟩
    · rw [if_neg h10]
      obtain ⟨d, rest, hd⟩ := ih (n / 10)
      exact ⟨d, rest ++ [digitChar n], by rw [hd]; rfl⟩

theorem Atoi_natChars (k : Nat) (neg : Bool) (s : String) (hk : k ≤ maxUint64)
    (hs : stripSign s.data = (neg, natChars k)) :
    Atoi s =
      if minInt ≤ (if neg then -(k : Int) else (k : Int)) ∧
          (if neg then -(k : Int) else (k : Int)) ≤ maxInt
      then .ok (if neg then -(k : Int) else (k : Int))
      else .error (.numError "Atoi" s .rangeErr) := by
  obtain ⟨d, rest, hd⟩ := natCharsFuel_head k k
  have hp : parseUint (digitChar d :: rest) 0 = .ok k := by
    rw [← hd]
    exact parseUint_natCharsFuel k k (le_refl k) hk
  unfold Atoi
  rw [hs]
  unfold natChars
  rw [hd]
  simp only [hp]

theorem stripSign_natChars (k : Nat) : stripSign (natChars k) = (false, natChars k) := by
  obtain ⟨d, rest, hd⟩ := natCharsFuel_head k k
  unfold natChars
  rw [hd]
  simp only [stripSign]
  rw [if_neg (digitChar_ne_minus d), if_neg (digitChar_ne_plus d)]

/-- Parsing the decimal rendering of an `int` gives the `int` back. -/
theorem Atoi_sprintfInt (n : Int) (hlo : minInt ≤ n) (hhi : n ≤ maxInt) :
    Atoi (sprintfInt n) = .ok n := by
  have hmin : minInt = -9223372036854775808 := by decide
  have hmax : maxInt = 9223372036854775807 := by decide
  cases n with
  | ofNat k =>
    have hs : stripSign (sprintfInt (Int.ofNat k)).data = (false, natChars k) :=
      stripSign_natChars k
    have h1 : minInt ≤ (k : Int) := hlo
    have h2 : (k : Int) ≤ maxInt := hhi
    have hk : k ≤ maxUint64 := by
      rw [maxUint64_eq]
      rw [hmax] at h2
      omega
    rw [Atoi_natChars k false _ hk hs]
    simp only [Bool.false_eq_true, if_false, h1, h2, and_self, if_true]
    rfl
  | negSucc k =>
    have hs : stripSign (sprintfInt (Int.negSucc k)).data = (true, natChars (k + 1)) := by
      show stripSign ('-' :: natChars (k + 1)) = _
      simp only [stripSign, if_true]
    have e : -((k + 1 : Nat) : Int) = Int.negSucc k := by
      rw [Int.negSucc_eq]; push_cast; ring
    have hk : k + 1 ≤ maxUint64 := by
      rw [maxUint64_eq]
      have h3 := hlo
      rw [hmin, ← e] at h3
      omega
    rw [Atoi_natChars (k + 1) true _ hk hs]
    simp only [if_true, e, hlo, hhi, and_self]

theorem Atoi_error_kind (s : String) (e : Error) (h : Atoi s = .error e) :
    e = .numError "Atoi" s .syntaxErr ∨ e = .numError "Atoi" s .rangeErr := by
  unfold Atoi at h
  rcases hs : stripSign s.data with ⟨neg, ds⟩
  rw [hs] at h
  cases ds with
  | nil =>
    left
    exact (Except.error.inj h).symm
  | cons c cs =>
    simp only [] at h
    cases hp : parseUint (c :: cs) 0 with
    | error kind =>
      rw [hp] at h
      have he := (Except.error.inj h).symm
      cases kind
      · exact Or.inl he
      · exact Or.inr he
    | ok v =>
      rw [hp] at h
      simp only [] at h
      split_ifs at h <;> exact Or.inr (Except.error.inj h).symm

/-! ## Schema-valid resource data -/

theorem schemaValid_lookup (d : ResourceData) (hv : d.schemaValid = true)
    (key : String) (ty : Ty) (hk : (key, ty) ∈ schema) (v : Value)
    (hl : lookupKey key d.attrs = some v) : v.ty = ty := by
  unfold ResourceData.schemaValid at hv
  rw [List.all_eq_true] at hv
  have := hv (key, ty) hk
  simp only [hl] at this
  exact of_decide_eq_true this

theorem lookupKey_schema (key : String) (ty : Ty) (hk : (key, ty) ∈ schema) :
    lookupKey key schema = some ty := by
  simp only [schema, List.mem_cons, Prod.mk.injEq, List.mem_singleton, List.not_mem_nil,
    or_false] at hk
  rcases hk with ⟨rfl, rfl⟩ | ⟨rfl, rfl⟩ | ⟨rfl, rfl⟩ | ⟨rfl, rfl⟩ | ⟨rfl, rfl⟩ | ⟨rfl, rfl⟩ <;> rfl

theorem Get_of_schema (d : ResourceData) (key : String) (ty : Ty)
    (hk : lookupKey key schema = some ty) :
    d.Get key =
      match lookupKey key d.attrs with
      | some v => v
      | none => ty.zero := by
  unfold ResourceData.Get
  rw [hk]

theorem Get_ty (d : ResourceData) (hv : d.schemaValid = true) (key : String) (ty : Ty)
    (hk : (key, ty) ∈ schema) : (d.Get key).ty = ty := by
  rw [Get_of_schema d key ty (lookupKey_schema key ty hk)]
  cases hl : lookupKey key d.attrs with
  | some v => exact schemaValid_lookup d hv key ty hk v hl
  | none => cases ty <;> rfl

theorem setTerraformState_refreshed (d : ResourceData) (n : NetworkInterface) :
    setTerraformState d
        [("name", .str n.Name), ("tags", .set n.Tags), ("mtu", .int n.EffectiveMTU)]
      = .ok (refreshed d n) := rfl

theorem setTerraformState_id (d : ResourceData) (v : Value)
    (rest : List (String × Value)) :
    setTerraformState d (("id", v) :: rest) = .error (.setFailed "id") := rfl

theorem Get_string (d : ResourceData) (hv : d.schemaValid = true) (key : String)
    (hk : (key, Ty.string) ∈ schema) : ∃ s, d.Get key = .str s := by
  have h := Get_ty d hv key .string hk
  cases hg : d.Get key with
  | str s => exact ⟨s, rfl⟩
  | nil => rw [hg] at h; cases h
  | int n => rw [hg] at h; cases h
  | bool b => rw [hg] at h; cases h
  | set xs => rw [hg] at h; cases h

theorem getParams_panics (d : ResourceData) (hv : d.schemaValid = true) :
    getNetworkInterfaceBridgeParams d = .error ⟨.string, .int⟩ := by
  obtain ⟨s, hs⟩ := Get_string d hv "mac_address" (by decide)
  unfold getNetworkInterfaceBridgeParams
  rw [hs]
  rfl

/-! ## Read -/

theorem read_cases {σ : Type} (c : Client σ) (d : ResourceData) (w : World σ) :
    ((resourceNetworkInterfaceBridgeRead c d w).1 ≠ .ok () ∧
      (resourceNetworkInterfaceBridgeRead c d w).2.1 = d) ∨
    ∃ identifier machine id networkInterface,
      d.Get "machine" = .str identifier ∧
      c.resolveMachine w.remote identifier = .ok machine ∧
      Atoi d.Id = .ok id ∧
      c.getInterface w.remote machine.SystemID id = .ok networkInterface ∧
      resourceNetworkInterfaceBridgeRead c d w =
        (.ok (), refreshed d networkInterface,
          (w.record (.getMachine identifier)).record
            (.getInterface machine.SystemID id)) := by
  unfold resourceNetworkInterfaceBridgeRead getMachine clientNetworkInterfaceGet
  cases hget : d.Get "machine" with
  | str identifier =>
    simp only [assertString]
    cases hm : c.resolveMachine w.remote identifier with
    | error e => left; simp [liftExt]
    | ok machine =>
      cases hi : Atoi d.Id with
      | error e => left; simp [liftExt]
      | ok id =>
        cases hg : c.getInterface w.remote machine.SystemID id with
        | error e => left; simp [liftExt, World.record, hg]
        | ok networkInterface =>
          right
          refine ⟨identifier, machine, id, networkInterface, rfl,
            hm, rfl, hg, ?_⟩
          simp [liftExt, World.record, hg, setTerraformState_refreshed]
  | nil => left; simp [assertString]
  | int n => left; simp [assertString]
  | bool b => left; simp [assertString]
  | set xs => left; simp [assertString]

theorem lookupKey_refreshed (d : ResourceData) (n : NetworkInterface) (k : String) :
    lookupKey k (refreshed d n).attrs =
      if k = "name" then some (.str n.Name)
      else if k = "tags" then some (.set n.Tags)
      else if k = "mtu" then some (.int n.EffectiveMTU)
      else lookupKey k d.attrs := by
  unfold refreshed
  simp only [lookupKey_setAttr]
  by_cases h1 : k = "name"
  · subst h1; simp
  · by_cases h2 : k = "tags"
    · subst h2; simp
    · by_cases h3 : k = "mtu"
      · subst h3; simp
      · simp [h1, h2, h3]

/-- C10: Read is a partial refresh. When it succeeds, the remote interface
fetched for the resolved machine and the parsed identifier supplies the new
values: the attributes `name`, `tags` and `mtu` hold its name, tags and
effective MTU, and the stored identifier and every other attribute (`machine`,
`mac_address`, `vlan` among them) are as before. When it does not succeed
(machine resolution, identifier parse or remote get failed) the local record
is unchanged. -/
theorem C10_read_partial_refresh {σ : Type} (c : Client σ) (d : ResourceData)
    (w : World σ) :
    ((resourceNetworkInterfaceBridgeRead c d w).1 = .ok () →
      ∃ identifier machine id networkInterface,
        d.Get "machine" = .str identifier ∧
        c.resolveMachine w.remote identifier = .ok machine ∧
        Atoi d.Id = .ok id ∧
        c.getInterface w.remote machine.SystemID id = .ok networkInterface ∧
        (resourceNetworkInterfaceBridgeRead c d w).2.1.Get "name"
          = .str networkInterface.Name ∧
        (resourceNetworkInterfaceBridgeRead c d w).2.1.Get "tags"
          = .set networkInterface.Tags ∧
        (resourceNetworkInterfaceBridgeRead c d w).2.1.Get "mtu"
          = .int networkInterface.EffectiveMTU ∧
        (resourceNetworkInterfaceBridgeRead c d w).2.1.Id = d.Id ∧
        (∀ key, key ≠ "name" → key ≠ "tags" → key ≠ "mtu" →
          lookupKey key (resourceNetworkInterfaceBridgeRead c d w).2.1.attrs
              = lookupKey key d.attrs ∧
            (resourceNetworkInterfaceBridgeRead c d w).2.1.Get key = d.Get key)) ∧
    ((resourceNetworkInterfaceBridgeRead c d w).1 ≠ .ok () →
      (resourceNetworkInterfaceBridgeRead c d w).2.1 = d) := by
  rcases read_cases c d w with ⟨hne, hd⟩ | ⟨identifier, machine, id, n, h1, h2, h3, h4, h5⟩
  · exact ⟨fun h => absurd h hne, fun _ => hd⟩
  · refine ⟨fun _ => ⟨identifier, machine, id, n, h1, h2, h3, h4, ?_, ?_, ?_, ?_, ?_⟩, ?_⟩
    · rw [h5, Get_of_schema _ "name" .string rfl]
      simp [lookupKey_refreshed]
    · rw [h5, Get_of_schema _ "tags" .set rfl]
      simp [lookupKey_refreshed]
    · rw [h5, Get_of_schema _ "mtu" .int rfl]
      simp [lookupKey_refreshed]
    · rw [h5]; rfl
    · intro key k1 k2 k3
      rw [h5]
      have hl : lookupKey key (refreshed d n).attrs = lookupKey key d.attrs := by
        rw [lookupKey_refreshed, if_neg k1, if_neg k2, if_neg k3]
      exact ⟨hl, by simp only [ResourceData.Get, hl]⟩
    · intro hne
      rw [h5] at hne
      exact absurd rfl hne

/-! ## Update, Delete and Create -/

theorem update_eq {σ : Type} (c : Client σ) (d : ResourceData) (w : World σ)
    (identifier : String) (hv : d.schemaValid = true)
    (hm : d.Get "machine" = .str identifier) :
    resourceNetworkInterfaceBridgeUpdate c d w =
      match c.resolveMachine w.remote identifier with
      | .error e => (.err (.external e), d, w.record (.getMachine identifier))
      | .ok _ =>
        match Atoi d.Id with
        | .error e => (.err e, d, w.record (.getMachine identifier))
        | .ok _ => (.panic ⟨.string, .int⟩, d, w.record (.getMachine identifier)) := by
  unfold resourceNetworkInterfaceBridgeUpdate getMachine
  rw [hm, getParams_panics d hv]
  simp only [assertString]
  cases c.resolveMachine w.remote identifier with
  | error e => rfl
  | ok machine => simp only [liftExt]

theorem delete_eq {σ : Type} (c : Client σ) (d : ResourceData) (w : World σ)
    (identifier : String) (hm : d.Get "machine" = .str identifier) :
    resourceNetworkInterfaceBridgeDelete c d w =
      match c.resolveMachine w.remote identifier with
      | .error e => (.err (.external e), d, w.record (.getMachine identifier))
      | .ok machine =>
        match Atoi d.Id with
        | .error e => (.err e, d, w.record (.getMachine identifier))
        | .ok id =>
          (match (c.deleteInterface w.remote machine.SystemID id).1 with
            | .error e => .err (.external e)
            | .ok _ => .ok (),
           d,
           { remote := (c.deleteInterface w.remote machine.SystemID id).2,
             calls := w.calls ++ [.getMachine identifier,
               .deleteInterface machine.SystemID id] }) := by
  unfold resourceNetworkInterfaceBridgeDelete getMachine clientNetworkInterfaceDelete
  rw [hm]
  simp only [assertString]
  cases c.resolveMachine w.remote identifier with
  | error e => rfl
  | ok machine =>
    simp only [liftExt]
    cases Atoi d.Id with
    | error e => rfl
    | ok id =>
      simp only [World.record, List.append_assoc, List.singleton_append]
      cases (c.deleteInterface w.remote machine.SystemID id).1 <;> rfl

theorem read_eq {σ : Type} (c : Client σ) (d : ResourceData) (w : World σ)
    (identifier : String) (hm : d.Get "machine" = .str identifier) :
    resourceNetworkInterfaceBridgeRead c d w =
      match c.resolveMachine w.remote identifier with
      | .error e => (.err (.external e), d, w.record (.getMachine identifier))
      | .ok machine =>
        match Atoi d.Id with
        | .error e => (.err e, d, w.record (.getMachine identifier))
        | .ok id =>
          match c.getInterface w.remote machine.SystemID id with
          | .error e =>
            (.err (.external e), d,
              { remote := w.remote,
                calls := w.calls ++ [.getMachine identifier,
                  .getInterface machine.SystemID id] })
          | .ok networkInterface =>
            (.ok (), refreshed d networkInterface,
              { remote := w.remote,
                calls := w.calls ++ [.getMachine identifier,
                  .getInterface machine.SystemID id] }) := by
  unfold resourceNetworkInterfaceBridgeRead getMachine clientNetworkInterfaceGet
  rw [hm]
  simp only [assertString]
  cases c.resolveMachine w.remote identifier with
  | error e => rfl
  | ok machine =>
    simp only [liftExt]
    cases Atoi d.Id with
    | error e => rfl
    | ok id =>
      simp only [World.record, List.append_assoc, List.singleton_append]
      cases c.getInterface w.remote machine.SystemID id with
      | error e => rfl
      | ok networkInterface => simp [setTerraformState_refreshed]

theorem create_eq {σ : Type} (c : Client σ) (d : ResourceData) (w : World σ)
    (identifier macAddress : String) (machine : Machine) (hv : d.schemaValid = true)
    (hm : d.Get "machine" = .str identifier)
    (hmac : d.Get "mac_address" = .str macAddress)
    (hr : c.resolveMachine w.remote identifier = .ok machine) :
    resourceNetworkInterfaceBridgeCreate c d w =
      match c.listInterfaces w.remote machine.SystemID with
      | .error e =>
        (.err (.external e), d,
          { remote := w.remote,
            calls := w.calls ++ [.getMachine identifier,
              .listInterfaces machine.SystemID] })
      | .ok l =>
        match findLoop macAddress l with
        | none =>
          (.panic ⟨.string, .int⟩, d,
            { remote := w.remote,
              calls := w.calls ++ [.getMachine identifier,
                .listInterfaces machine.SystemID] })
        | some networkInterface =>
          resourceNetworkInterfaceBridgeUpdate c
            (d.SetId (sprintfInt networkInterface.ID))
            { remote := w.remote,
              calls := w.calls ++ [.getMachine identifier,
                .listInterfaces machine.SystemID] } := by
  unfold resourceNetworkInterfaceBridgeCreate getMachine findNetworkInterfaceBridge
    clientNetworkInterfacesGet
  rw [hm, hmac, getParams_panics d hv]
  simp only [assertString, hr, liftExt, World.record, List.append_assoc,
    List.singleton_append]
  cases c.listInterfaces w.remote machine.SystemID with
  | error e => rfl
  | ok l =>
    simp only []
    cases findLoop macAddress l <;> rfl

theorem update_not_ok {σ : Type} (c : Client σ) (d : ResourceData) (w : World σ)
    (hv : d.schemaValid = true) :
    (resourceNetworkInterfaceBridgeUpdate c d w).1 ≠ .ok () := by
  obtain ⟨identifier, hm⟩ := Get_string d hv "machine" (by decide)
  rw [update_eq c d w identifier hv hm]
  cases c.resolveMachine w.remote identifier with
  | error e => simp
  | ok machine => cases Atoi d.Id <;> simp

theorem create_not_ok {σ : Type} (c : Client σ) (d : ResourceData) (w : World σ)
    (hv : d.schemaValid = true) :
    (resourceNetworkInterfaceBridgeCreate c d w).1 ≠ .ok () := by
  obtain ⟨identifier, hm⟩ := Get_string d hv "machine" (by decide)
  obtain ⟨macAddress, hmac⟩ := Get_string d hv "mac_address" (by decide)
  cases hr : c.resolveMachine w.remote identifier with
  | error e =>
    unfold resourceNetworkInterfaceBridgeCreate getMachine
    rw [hm]
    simp [assertString, hr, liftExt]
  | ok machine =>
    rw [create_eq c d w identifier macAddress machine hv hm hmac hr]
    cases c.listInterfaces w.remote machine.SystemID with
    | error e => simp
    | ok l =>
      simp only []
      cases findLoop macAddress l with
      | none => simp
      | some n => exact update_not_ok c (d.SetId (sprintfInt n.ID)) _ hv

/-! ## The parameter mapping fails on schema-valid data -/

/-- C8: on every schema-valid resource data the parameter mapping does not
complete: `mac_address` holds a string, the first field of the literal asserts
it to be an `int`, and the assertion panics ("interface {} is string, not
int"); no parameter record is returned. -/
theorem C8_params_mapping_panics (d : ResourceData) (hv : d.schemaValid = true) :
    getNetworkInterfaceBridgeParams d = .error ⟨.string, .int⟩ ∧
      ∀ params, getNetworkInterfaceBridgeParams d ≠ .ok params := by
  have h := getParams_panics d hv
  refine ⟨h, fun params hp => ?_⟩
  rw [h] at hp
  cases hp

/-- C8 at the desired state with machine "m1" and MAC address "AA:BB". -/
theorem C8_params_mapping_panics_witness :
    desiredM1.schemaValid = true ∧
      getNetworkInterfaceBridgeParams desiredM1 = .error ⟨.string, .int⟩ ∧
      ∀ params, getNetworkInterfaceBridgeParams desiredM1 ≠ .ok params :=
  ⟨by decide, C8_params_mapping_panics desiredM1 (by decide)⟩

/-! ## The stored identifier -/

/-- C9: with the machine resolved, a stored identifier that `strconv.Atoi`
rejects makes Read, Update and Delete fail with that parse error after the
machine lookup alone, with no remote get, update or delete call and the remote
state untouched. With the stored identifier the decimal string of an `int` `n`,
Read issues the get call and Delete the delete call for exactly
`(systemID, n)`; Update, however, panics in the parameter mapping while the
arguments of the remote update call are evaluated, so that call is never
issued. -/
theorem C9_stored_identifier {σ : Type} (c : Client σ) (d : ResourceData)
    (w : World σ) (identifier : String) (machine : Machine)
    (hv : d.schemaValid = true) (hm : d.Get "machine" = .str identifier)
    (hr : c.resolveMachine w.remote identifier = .ok machine) :
    (∀ e, Atoi d.Id = .error e →
      (e = .numError "Atoi" d.Id .syntaxErr ∨ e = .numError "Atoi" d.Id .rangeErr) ∧
      resourceNetworkInterfaceBridgeRead c d w
        = (.err e, d, w.record (.getMachine identifier)) ∧
      resourceNetworkInterfaceBridgeUpdate c d w
        = (.err e, d, w.record (.getMachine identifier)) ∧
      resourceNetworkInterfaceBridgeDelete c d w
        = (.err e, d, w.record (.getMachine identifier))) ∧
    (∀ n, minInt ≤ n → n ≤ maxInt → d.Id = sprintfInt n →
      (resourceNetworkInterfaceBridgeRead c d w).2.2.calls
        = w.calls ++ [.getMachine identifier, .getInterface machine.SystemID n] ∧
      (resourceNetworkInterfaceBridgeDelete c d w).2.2.calls
        = w.calls ++ [.getMachine identifier, .deleteInterface machine.SystemID n] ∧
      resourceNetworkInterfaceBridgeUpdate c d w
        = (.panic ⟨.string, .int⟩, d, w.record (.getMachine identifier))) := by
  constructor
  · intro e he
    refine ⟨Atoi_error_kind _ _ he, ?_, ?_, ?_⟩
    · rw [read_eq c d w identifier hm, hr, he]
    · rw [update_eq c d w identifier hv hm, hr, he]
    · rw [delete_eq c d w identifier hm, hr, he]
  · intro n hlo hhi hid
    have ha : Atoi d.Id = .ok n := by rw [hid]; exact Atoi_sprintfInt n hlo hhi
    refine ⟨?_, ?_, ?_⟩
    · rw [read_eq c d w identifier hm, hr, ha]
      simp only []
      cases c.getInterface w.remote machine.SystemID n <;> rfl
    · rw [delete_eq c d w identifier hm, hr, ha]
    · rw [update_eq c d w identifier hv hm, hr, ha]

/-- C9 at the managed bridge of machine "m1" with stored identifier "5":
Update panics after the machine lookup and issues no update call. -/
theorem C9_stored_identifier_witness :
    managedBr0.Id = sprintfInt 5 ∧
    (resourceNetworkInterfaceBridgeRead remoteClient managedBr0 ⟨remoteM1, []⟩).2.2.calls
      = [.getMachine "m1", .getInterface "m1" 5] ∧
    (resourceNetworkInterfaceBridgeDelete remoteClient managedBr0 ⟨remoteM1, []⟩).2.2.calls
      = [.getMachine "m1", .deleteInterface "m1" 5] ∧
    resourceNetworkInterfaceBridgeUpdate remoteClient managedBr0 ⟨remoteM1, []⟩
      = (.panic ⟨.string, .int⟩, managedBr0, ⟨remoteM1, [.getMachine "m1"]⟩) :=
  ⟨by decide,
    (C9_stored_identifier remoteClient managedBr0 ⟨remoteM1, []⟩ "m1" ⟨"m1"⟩
      (by decide) (by decide) (by decide)).2 5 (by decide) (by decide) (by decide)⟩

/-! ## Create -/

/-- C6: on schema-valid resource data, with the machine resolved and the list
call answered, Create never issues the remote create call. When the lookup
finds nothing, the parameter mapping panics while the arguments of the create
call are evaluated: the call log holds the machine lookup and the list call
only, and no identifier is set. When the lookup finds an interface, its
printed numeric ID is set as identifier and no create call is made, but the
Update that follows panics in the same parameter mapping. -/
theorem C6_create_or_adopt {σ : Type} (c : Client σ) (d : ResourceData)
    (w : World σ) (identifier macAddress : String) (machine : Machine)
    (l : List NetworkInterface) (hv : d.schemaValid = true)
    (hm : d.Get "machine" = .str identifier)
    (hmac : d.Get "mac_address" = .str macAddress)
    (hr : c.resolveMachine w.remote identifier = .ok machine)
    (hl : c.listInterfaces w.remote machine.SystemID = .ok l) :
    (findLoop macAddress l = none →
      resourceNetworkInterfaceBridgeCreate c d w =
        (.panic ⟨.string, .int⟩, d,
          { remote := w.remote,
            calls := w.calls ++ [.getMachine identifier,
              .listInterfaces machine.SystemID] })) ∧
    (∀ n, findLoop macAddress l = some n → minInt ≤ n.ID → n.ID ≤ maxInt →
      resourceNetworkInterfaceBridgeCreate c d w =
        (.panic ⟨.string, .int⟩, d.SetId (sprintfInt n.ID),
          { remote := w.remote,
            calls := w.calls ++ [.getMachine identifier,
              .listInterfaces machine.SystemID, .getMachine identifier] })) := by
  have hc := create_eq c d w identifier macAddress machine hv hm hmac hr
  rw [hl] at hc
  simp only [] at hc
  constructor
  · intro hf
    rw [hc, hf]
  · intro n hf hlo hhi
    rw [hc, hf]
    simp only []
    rw [update_eq c (d.SetId (sprintfInt n.ID)) _ identifier hv hm]
    simp only [hr]
    have ha : Atoi (d.SetId (sprintfInt n.ID)).Id = .ok n.ID :=
      Atoi_sprintfInt n.ID hlo hhi
    rw [ha]
    simp [World.record]

/-- C6 at the desired state for machine "m1", whose only interface is
physical: the lookup finds nothing, Create panics, no create call is logged. -/
theorem C6_create_or_adopt_witness :
    findLoop "AA:BB" [eth0] = none ∧
    resourceNetworkInterfaceBridgeCreate remoteClient desiredM1 ⟨remoteNoBridge, []⟩ =
      (.panic ⟨.string, .int⟩, desiredM1,
        ⟨remoteNoBridge, [.getMachine "m1", .listInterfaces "m1"]⟩) :=
  ⟨by decide,
    (C6_create_or_adopt remoteClient desiredM1 ⟨remoteNoBridge, []⟩ "m1" "AA:BB" ⟨"m1"⟩
      [eth0] (by decide) (by decide) (by decide) (by decide) (by decide)).1 (by decide)⟩

/-- C5: Create run twice with the same desired state on the model service.
On a machine without a bridge both runs panic in the parameter mapping before
the create call: no identifier is set and the machine still has no bridge. On
a machine that already has the bridge both runs set the identifier "5" and
then panic in the Update that follows; the number of bridges stays one. In
neither case does Create complete, and it completes on no schema-valid
desired state at all. -/
theorem C5_create_twice :
    (resourceNetworkInterfaceBridgeCreate remoteClient desiredM1 ⟨remoteNoBridge, []⟩ =
      (.panic ⟨.string, .int⟩, desiredM1,
        ⟨remoteNoBridge, [.getMachine "m1", .listInterfaces "m1"]⟩)) ∧
    (resourceNetworkInterfaceBridgeCreate remoteClient desiredM1
        ⟨remoteNoBridge, [.getMachine "m1", .listInterfaces "m1"]⟩ =
      (.panic ⟨.string, .int⟩, desiredM1,
        ⟨remoteNoBridge, [.getMachine "m1", .listInterfaces "m1",
          .getMachine "m1", .listInterfaces "m1"]⟩)) ∧
    desiredM1.Id = "" ∧
    remoteNoBridge.bridgeCount "m1" = 0 ∧
    (resourceNetworkInterfaceBridgeCreate remoteClient desiredM1 ⟨remoteM1, []⟩ =
      (.panic ⟨.string, .int⟩, desiredM1.SetId "5",
        ⟨remoteM1, [.getMachine "m1", .listInterfaces "m1", .getMachine "m1"]⟩)) ∧
    (resourceNetworkInterfaceBridgeCreate remoteClient desiredM1
        ⟨remoteM1, [.getMachine "m1", .listInterfaces "m1", .getMachine "m1"]⟩ =
      (.panic ⟨.string, .int⟩, desiredM1.SetId "5",
        ⟨remoteM1, [.getMachine "m1", .listInterfaces "m1", .getMachine "m1",
          .getMachine "m1", .listInterfaces "m1", .getMachine "m1"]⟩)) ∧
    remoteM1.bridgeCount "m1" = 1 ∧
    (∀ (σ : Type) (c : Client σ) (d : ResourceData) (w : World σ),
      d.schemaValid = true → (resourceNetworkInterfaceBridgeCreate c d w).1 ≠ .ok ()) := by
  refine ⟨?_, ?_, ?_, ?_, ?_, ?_, ?_, fun σ c d w hv => create_not_ok c d w hv⟩ <;> decide

/-! ## Import never produces state -/

theorem importer_accept_eq {σ : Type} (c : Client σ) (d : ResourceData) (w : World σ)
    (a b : String) (hs : stringsSplit d.Id ':' = [a, b]) (ha : a ≠ "") (hb : b ≠ "") :
    importerStateContext c d w =
      match c.resolveMachine w.remote a with
      | .error e => (.error (.external e), w.record (.getMachine a))
      | .ok machine =>
        match c.listInterfaces w.remote machine.SystemID with
        | .error e =>
          (.error (.external e),
            { remote := w.remote,
              calls := w.calls ++ [.getMachine a, .listInterfaces machine.SystemID] })
        | .ok l =>
          match findLoop b l with
          | none =>
            (.error (.notFound b machine.SystemID),
              { remote := w.remote,
                calls := w.calls ++ [.getMachine a, .listInterfaces machine.SystemID] })
          | some _ =>
            (.error (.setFailed "id"),
              { remote := w.remote,
                calls := w.calls ++ [.getMachine a, .listInterfaces machine.SystemID] }) := by
  rw [importer_accept c d w a b hs ha hb]
  unfold getMachine getNetworkInterfaceBridge findNetworkInterfaceBridge
    clientNetworkInterfacesGet
  cases c.resolveMachine w.remote a with
  | error e => rfl
  | ok machine =>
    simp only [liftExt, World.record, List.append_assoc, List.singleton_append]
    cases c.listInterfaces w.remote machine.SystemID with
    | error e => rfl
    | ok l =>
      simp only []
      cases findLoop b l with
      | none => rfl
      | some n => simp only [setTerraformState_id]

theorem importer_never_ok {σ : Type} (c : Client σ) (d : ResourceData) (w : World σ)
    (ds : List ResourceData) : (importerStateContext c d w).1 ≠ .ok ds := by
  by_cases h : ∃ a b, stringsSplit d.Id ':' = [a, b] ∧ a ≠ "" ∧ b ≠ ""
  · obtain ⟨a, b, hs, ha, hb⟩ := h
    rw [importer_accept_eq c d w a b hs ha hb]
    cases c.resolveMachine w.remote a with
    | error e => simp
    | ok machine =>
      simp only []
      cases c.listInterfaces w.remote machine.SystemID with
      | error e => simp
      | ok l =>
        simp only []
        cases findLoop b l <;> simp
  · rw [importer_reject c d w h]
    simp

/-- C4: the import never produces state. The token
"machine123:AA:BB:CC:DD:EE:FF" of a machine that has a bridge with that MAC
address (ID 5) is rejected by the format guard, before any collaborator is
called. A token that passes the guard, with the machine resolved and the
bridge found ("machine123:br0", "machine123:5"), fails as well: the importer
hands the keys `id`, `parent` and `bridge_type`, which the schema does not
declare, to `setTerraformState` and never calls `SetId`, so writing the state
fails and no resource data is returned. For no token, client and remote state
does the importer return resource data. -/
theorem C4_import_never_produces_state :
    (findLoop "AA:BB:CC:DD:EE:FF" (remoteMachine123.interfacesOf "machine123")
        = some brMac ∧ brMac.ID = 5) ∧
    importerStateContext remoteClient ⟨"machine123:AA:BB:CC:DD:EE:FF", []⟩
        ⟨remoteMachine123, []⟩
      = (.error (.unexpectedFormat "machine123:AA:BB:CC:DD:EE:FF"),
          ⟨remoteMachine123, []⟩) ∧
    importerStateContext remoteClient ⟨"machine123:br0", []⟩ ⟨remoteMachine123, []⟩
      = (.error (.setFailed "id"),
          ⟨remoteMachine123, [.getMachine "machine123", .listInterfaces "machine123"]⟩) ∧
    importerStateContext remoteClient ⟨"machine123:5", []⟩ ⟨remoteMachine123, []⟩
      = (.error (.setFailed "id"),
          ⟨remoteMachine123, [.getMachine "machine123", .listInterfaces "machine123"]⟩) ∧
    (∀ (σ : Type) (c : Client σ) (d : ResourceData) (w : World σ) (a b : String)
        (machine : Machine) (l : List NetworkInterface) (n : NetworkInterface),
      stringsSplit d.Id ':' = [a, b] → a ≠ "" → b ≠ "" →
      c.resolveMachine w.remote a = .ok machine →
      c.listInterfaces w.remote machine.SystemID = .ok l →
      findLoop b l = some n →
      importerStateContext c d w =
        (.error (.setFailed "id"),
          { remote := w.remote,
            calls := w.calls ++ [.getMachine a, .listInterfaces machine.SystemID] })) ∧
    (∀ (σ : Type) (c : Client σ) (d : ResourceData) (w : World σ)
        (ds : List ResourceData), (importerStateContext c d w).1 ≠ .ok ds) := by
  refine ⟨by decide, by decide, by decide, by decide, ?_,
    fun σ c d w ds => importer_never_ok c d w ds⟩
  intro σ c d w a b machine l n hs ha hb hr hl hf
  rw [importer_accept_eq c d w a b hs ha hb, hr]
  simp only [hl, hf]

/-- C10 on the model service: reading the managed bridge of machine "m1"
returns without diagnostics and stores the remote name, tags and MTU. -/
theorem C10_read_partial_refresh_witness :
    (resourceNetworkInterfaceBridgeRead remoteClient managedBr0 ⟨remoteM1, []⟩).1 = .ok () ∧
    (resourceNetworkInterfaceBridgeRead remoteClient managedBr0 ⟨remoteM1, []⟩).2.1
      = refreshed managedBr0 br0 ∧
    ∃ identifier machine id networkInterface,
      managedBr0.Get "machine" = .str identifier ∧
      remoteClient.resolveMachine remoteM1 identifier = .ok machine ∧
      Atoi managedBr0.Id = .ok id ∧
      remoteClient.getInterface remoteM1 machine.SystemID id = .ok networkInterface ∧
      (resourceNetworkInterfaceBridgeRead remoteClient managedBr0 ⟨remoteM1, []⟩).2.1.Get
        "name" = .str networkInterface.Name :=
  ⟨by decide, by decide,
    ((C10_read_partial_refresh remoteClient managedBr0 ⟨remoteM1, []⟩).1 (by decide)).imp
      fun _ h1 => h1.imp fun _ h2 => h2.imp fun _ h3 => h3.imp fun _ h =>
        ⟨h.1, h.2.1, h.2.2.1, h.2.2.2.1, h.2.2.2.2.1⟩⟩

end Maas
